import Mathlib

/-!
ProductCard: variant resolution, thumbnail, price and link building

Shallow embedding of the logic of `src/app/component/ProductCard/ProductCard.component.js`
(`getConfigurableParameters`, `getLinkTo`, `getThumbnail`, the price selection of `render`
and the link object built by `renderReviewSummary`), followed by theorems about it.

JavaScript values are embedded with explicit `undefined` / `null` cases, a thrown
`TypeError` is the `Except.error` result, and the value returned by the imported helper
`getVariantIndex` is a parameter of the embedding.
-/

namespace ProductCard

/-! ## Data model -/

/-- A JavaScript value that may be `undefined`, `null`, or a value of the expected shape. -/
inductive Nullable (α : Type) where
  | undefined : Nullable α
  | null : Nullable α
  | val (a : α) : Nullable α
  deriving Repr, DecidableEq

/-- A plain object used as a mapping of attribute code to value, in insertion order. -/
abbrev Mapping := List (String × String)

/-- The `thumbnail` field: an object with a `path`. -/
structure Thumbnail where
  path : Nullable String
  deriving Repr, DecidableEq

/-- The `review_summary` field. -/
structure ReviewSummary where
  review_count : Nullable Nat
  rating_summary : Nullable Nat
  deriving Repr, DecidableEq

/-- The fields of a product other than its variant list. -/
structure ProductData where
  url_key : Nullable String
  type_id : String
  thumbnail : Nullable Thumbnail
  price : Nullable Nat
  parameters : Nullable Mapping
  review_summary : Nullable ReviewSummary
  deriving Repr, DecidableEq

/-- An entry of `variants`: a nested product payload and the variant's `parameters`. -/
structure Variant where
  product : ProductData
  parameters : Mapping
  deriving Repr, DecidableEq

/-- A product: its own fields and the optional ordered list of variants. -/
structure Product where
  data : ProductData
  variants : Nullable (List Variant)
  deriving Repr, DecidableEq

/-- The props read by the embedded methods, as found in `this.props`. -/
structure Props where
  product : Product
  customFilters : Nullable Mapping
  deriving Repr, DecidableEq

/-- Application of `ProductCard.defaultProps`: an `undefined` `customFilters` becomes `{}`. -/
def defaultProps (props : Props) : Props :=
  match props.customFilters with
  | .undefined => { props with customFilters := .val [] }
  | _ => props

/-- An exception thrown by the embedded code. -/
inductive JSError where
  | typeError : JSError
  deriving Repr, DecidableEq

/-- A value that `getVariantIndex` may return: an integer, `NaN`, or any other value
(a fractional or infinite number, or a non-number). -/
inductive IndexValue where
  | int (i : Int) : IndexValue
  | nan : IndexValue
  | other : IndexValue
  deriving Repr, DecidableEq

/-- The result of `getConfigurableParameters`: `{ index, parameters }`. -/
structure Selection where
  index : IndexValue
  parameters : Mapping
  deriving Repr, DecidableEq

/-- The object returned by `getLinkTo`: `{ pathname, state: { product }, search }`. -/
structure NavigationTarget where
  pathname : String
  state : Product
  search : String
  deriving Repr, DecidableEq

/-! ## JavaScript primitives used by the component -/

/-- Truthiness of a value that is a string when present: `undefined`, `null` and `""` are falsy. -/
def truthyString : Nullable String → Bool
  | .val s => s != ""
  | _ => false

/-- The `Number.isNaN` primitive: true for the number `NaN` only. -/
def Number.isNaN : IndexValue → Bool
  | .nan => true
  | _ => false

/-- Array element access `xs[index]`: `none` stands for `undefined`, which is what an array
yields at a negative or too large integer, at `NaN` and at any other non-index value. -/
def arrayGet {α : Type} (xs : List α) : IndexValue → Option α
  | .int i => if 0 ≤ i then xs.get? i.toNat else none
  | _ => none

/-- The `Object.keys` primitive on a mapping. -/
def Object.keys (o : Mapping) : List String :=
  o.map Prod.fst

/-- Property read `o[key]` on a mapping: `none` stands for `undefined`. -/
def objGet (o : Mapping) (key : String) : Option String :=
  o.lookup key

/-- The object `{ ...o, [key]: value }`: an existing key keeps its position and takes the new
value, a new key is added last. -/
def objSet : Mapping → String → String → Mapping
  | [], key, value => [(key, value)]
  | (k, v) :: rest, key, value =>
      if k = key then (k, value) :: rest else (k, v) :: objSet rest key value

/-! ## getConfigurableParameters -/

/-- The selection `{ index: 0, parameters: {} }`. -/
def defaultSelection : Selection :=
  { index := .int 0, parameters := [] }

/-- The arguments of one call of `getVariantIndex`. -/
abbrev GetVariantIndexCall := List Variant × Mapping

/-- Embedding of `getConfigurableParameters` (lines 40-59). The imported `getVariantIndex` is
the parameter of the same name. The first component of the result lists the calls made to
`getVariantIndex`, the second is the returned selection or the thrown error. -/
def getConfigurableParameters (getVariantIndex : List Variant → Mapping → IndexValue)
    (props : Props) : List GetVariantIndexCall × Except JSError Selection :=
  match props.product.variants, props.customFilters with
  | .val variants, .val customFilters =>
      if (Object.keys customFilters).length ≠ 0 then
        let index := getVariantIndex variants customFilters
        if Number.isNaN index then
          match arrayGet variants index with
          | none => ([(variants, customFilters)], .error .typeError)
          | some variant =>
              match variant.product.parameters with
              | .val params =>
                  let parameters := params.foldl
                    (fun acc entry =>
                      if truthyString ((objGet customFilters entry.1).elim .undefined .val)
                      then objSet acc entry.1 entry.2 else acc)
                    []
                  ([(variants, customFilters)], .ok { index := index, parameters := parameters })
              | _ => ([(variants, customFilters)], .error .typeError)
        else ([(variants, customFilters)], .ok defaultSelection)
      else ([], .ok defaultSelection)
  | _, _ => ([], .ok defaultSelection)

/-! ## getLinkTo -/

/-- Embedding of `getLinkTo` (lines 61-71). The imported `convertKeyValueObjectToQueryString`
is the parameter `convert`. `none` stands for the returned `undefined`. -/
def getLinkTo (convert : Mapping → String) (props : Props) (parameters : Mapping) :
    Except JSError (Option NavigationTarget) :=
  match props.product.data.url_key with
  | .val url_key =>
      if url_key = "" then .ok none
      else .ok (some
        { pathname := "/product/" ++ url_key
          state := props.product
          search := convert parameters })
  | _ => .ok none

/-! ## getThumbnail -/

/-- Embedding of `getThumbnail` (lines 78-82). Reading `.product.thumbnail.path` throws a
`TypeError` when `variants[currentVariantIndex]` is `undefined` or when the variant's
`thumbnail` is `null` or `undefined`. -/
def getThumbnail (props : Props) (currentVariantIndex : IndexValue) :
    Except JSError (Nullable String) := do
  let variantThumbnail ←
    match props.product.variants with
    | .val variants =>
        match arrayGet variants currentVariantIndex with
        | none => .error .typeError
        | some variant =>
            match variant.product.thumbnail with
            | .val thumbnail => .ok thumbnail.path
            | _ => .error .typeError
    | _ => .ok .null
  if truthyString variantThumbnail then .ok variantThumbnail
  else
    match props.product.data.thumbnail with
    | .val thumbnail => .ok thumbnail.path
    | .null => .ok .null
    | .undefined => .ok .undefined

/-! ## render: the values computed before the markup -/

/-- The product whose `price` is read in `render` (lines 180-182):
`type_id === 'configurable' && variants ? variants[index].product : product`. -/
def effectiveProduct (props : Props) (index : IndexValue) : Except JSError ProductData :=
  if props.product.data.type_id = "configurable" then
    match props.product.variants with
    | .val variants =>
        match arrayGet variants index with
        | none => .error .typeError
        | some variant => .ok variant.product
    | _ => .ok props.product.data
  else .ok props.product.data

/-- The values `render` computes on lines 174-182. -/
structure RenderFacts where
  index : IndexValue
  parameters : Mapping
  thumbnail : Nullable String
  linkTo : Option NavigationTarget
  price : Nullable Nat
  deriving Repr, DecidableEq

/-- Embedding of lines 174-182 of `render`. -/
def render (getVariantIndex : List Variant → Mapping → IndexValue)
    (convert : Mapping → String) (props : Props) : Except JSError RenderFacts := do
  let selection ← (getConfigurableParameters getVariantIndex props).2
  let thumbnail ← getThumbnail props selection.index
  let linkTo ← getLinkTo convert props selection.parameters
  let effective ← effectiveProduct props selection.index
  .ok { index := selection.index
        parameters := selection.parameters
        thumbnail := thumbnail
        linkTo := linkTo
        price := effective.price }

/-! ## renderReviewSummary: the link object -/

/-- An object used as link target: the properties of a navigation target, each of which may
be missing, and `hash`. -/
structure LinkObject where
  pathname : Option String
  state : Option Product
  search : Option String
  hash : Option String
  deriving Repr, DecidableEq

/-- The object that `getLinkTo` returns, as stored: it has no `hash`. -/
def NavigationTarget.toObject (target : NavigationTarget) : LinkObject :=
  { pathname := some target.pathname
    state := some target.state
    search := some target.search
    hash := none }

/-- The objects allocated so far; an object is referred to by its position. -/
abbrev Store := List LinkObject

/-- Embedding of `renderReviewSummary` (lines 142-148), up to the link object `_linkTo` it
hands to `HashLink`. `linkTo` is `none` for `undefined` and otherwise refers to an object of
the store. The object literal `{ ...linkTo, hash: '#reviews' }` allocates a new object. The
result is the store after the call and the reference to `_linkTo`, or `none` when the method
returns `null` before building it. -/
def renderReviewSummary (props : Props) (store : Store) (linkTo : Option (Fin store.length)) :
    Store × Option Nat :=
  let reviewCount : Nullable Nat :=
    match props.product.data.review_summary with
    | .val review_summary => review_summary.review_count
    | _ => .undefined
  match reviewCount with
  | .val count =>
      if count = 0 then (store, none)
      else
        let spread : LinkObject :=
          match linkTo with
          | some ref => store.get ref
          | none => { pathname := none, state := none, search := none, hash := none }
        (store ++ [{ spread with hash := some "#reviews" }], some store.length)
  | _ => (store, none)

/-! ## Imported helpers -/

/-- Characters that percent-encoding leaves as they are: letters, digits, `-`, `.`, `_`, `~`. -/
def isUnreserved (c : Char) : Bool :=
  c.isAlphanum || c == '-' || c == '.' || c == '_' || c == '~'

/-- Upper-case hexadecimal digit of a number below 16. -/
def hexDigit (n : Nat) : Char :=
  if n < 10 then Char.ofNat (48 + n) else Char.ofNat (55 + n)

/-- Modelled from the spec: the percent-encoding used by the query string, which is not among
the sources. Every character that is not unreserved becomes `%XX` for each byte of its UTF-8
encoding. -/
def percentEncode (s : String) : String :=
  String.join (s.toList.map fun c =>
    if isUnreserved c then c.toString
    else String.join ((String.utf8EncodeChar c).map fun b =>
      String.mk ['%', hexDigit (b.toNat / 16), hexDigit (b.toNat % 16)]))

/-- Modelled from the spec: `convertKeyValueObjectToQueryString` of `Util/Url` is not among the
sources. The spec builds `search` from the parameters in the order of the mapping, each key
and value percent-encoded, written `key=value`, joined with `&`, with no leading `?`. -/
def convertKeyValueObjectToQueryString (parameters : Mapping) : String :=
  "&".intercalate (parameters.map fun entry => percentEncode entry.1 ++ "=" ++ percentEncode entry.2)

/-- Modelled from the spec: the test that `getVariantIndex` applies to a variant, which is not
among the sources. For each key of the filters, the variant's `parameters[key]` equals the
filter value or the variant lacks the key. -/
def variantConsistent (filters : Mapping) (variant : Variant) : Bool :=
  filters.all fun entry =>
    match variant.parameters.lookup entry.1 with
    | some value => value == entry.2
    | none => true

/-- Position of the first element that satisfies `p`, counted from `start`. -/
def firstIndexFrom {α : Type} (p : α → Bool) : List α → Nat → Option Nat
  | [], _ => none
  | x :: rest, start => if p x then some start else firstIndexFrom p rest (start + 1)

/-- Modelled from the spec: `getVariantIndex` of `Util/Product` is not among the sources. The
spec scans the variants in order and takes the first one that is consistent with the filters.
The spec does not say which value reports that no variant matches, so that value is the
parameter `noMatch`. -/
def getVariantIndex (noMatch : IndexValue) (variants : List Variant) (filters : Mapping) :
    IndexValue :=
  match firstIndexFrom (variantConsistent filters) variants 0 with
  | some i => .int i
  | none => noMatch

/-! ## Example products -/

/-- A variant's product payload with a thumbnail path and a price. -/
def variantPayload (path : String) (price : Nat) : ProductData :=
  { url_key := .undefined, type_id := "simple", thumbnail := .val { path := .val path },
    price := .val price, parameters := .undefined, review_summary := .undefined }

/-- The variants of the product `cap`: blue, then red. -/
def capVariants : List Variant :=
  [ { product := variantPayload "/b.jpg" 10, parameters := [("color", "blue")] },
    { product := variantPayload "/r.jpg" 12, parameters := [("color", "red")] } ]

/-- The configurable product `cap` with a blue and a red variant. -/
def capProduct : Product :=
  { data :=
      { url_key := .val "cap", type_id := "configurable", thumbnail := .undefined,
        price := .undefined, parameters := .undefined, review_summary := .undefined }
    variants := .val capVariants }

/-- A configurable product with base thumbnail `/a.jpg` whose third variant has a `null`
thumbnail. -/
def shoeProduct : Product :=
  { data :=
      { url_key := .val "red-shoe", type_id := "configurable",
        thumbnail := .val { path := .val "/a.jpg" },
        price := .val 30, parameters := .undefined, review_summary := .undefined }
    variants := .val
      [ { product := variantPayload "/s.jpg" 30, parameters := [("size", "S")] },
        { product := variantPayload "/m.jpg" 31, parameters := [("size", "M")] },
        { product := { variantPayload "/l.jpg" 32 with thumbnail := .null },
          parameters := [("size", "L")] } ] }

/-- A product of type `simple` with base thumbnail `/a.jpg` and price 5 that carries a
variant list. -/
def simpleProduct : Product :=
  { data :=
      { url_key := .val "mug", type_id := "simple",
        thumbnail := .val { path := .val "/a.jpg" },
        price := .val 5, parameters := .undefined,
        review_summary := .val { review_count := .val 3, rating_summary := .val 80 } }
    variants := .val [ { product := variantPayload "/v.jpg" 7, parameters := [] } ] }

/-- The navigation target of `simpleProduct` without parameters. -/
def mugTarget : NavigationTarget :=
  { pathname := "/product/mug", state := simpleProduct, search := "" }

/-! ## Theorems -/

/-- C3: when `customFilters` is absent (`undefined` or `null`) or has no keys, or `variants`
is absent, `getConfigurableParameters` returns `{ index: 0, parameters: {} }` whatever the
variants are and makes no call to `getVariantIndex`; the same holds after the default props
have been applied. -/
theorem getConfigurableParameters_default_when_nothing_to_match
    (gvi : List Variant → Mapping → IndexValue) (props : Props)
    (h : props.customFilters = .undefined ∨ props.customFilters = .null ∨
      props.customFilters = .val [] ∨
      props.product.variants = .undefined ∨ props.product.variants = .null) :
    getConfigurableParameters gvi props = ([], .ok { index := .int 0, parameters := [] }) ∧
    getConfigurableParameters gvi (defaultProps props)
      = ([], .ok { index := .int 0, parameters := [] }) := by
  obtain ⟨⟨data, variants⟩, customFilters⟩ := props
  cases variants <;> cases customFilters <;>
    simp_all [getConfigurableParameters, defaultProps, defaultSelection, Object.keys]

/-- Witness of C3: the product `cap` with an empty filter set. -/
theorem getConfigurableParameters_default_when_nothing_to_match_witness :
    getConfigurableParameters (getVariantIndex .nan)
        { product := capProduct, customFilters := .val [] }
      = ([], .ok { index := .int 0, parameters := [] }) :=
  (getConfigurableParameters_default_when_nothing_to_match (getVariantIndex .nan)
    { product := capProduct, customFilters := .val [] } (Or.inr (Or.inr (Or.inl rfl)))).1

/-- C10: whatever `getVariantIndex` returns, a selection that `getConfigurableParameters`
returns is `{ index: 0, parameters: {} }`; it returns a selection exactly when `variants` is
absent, `customFilters` is absent or empty, or `getVariantIndex` returns a value other than
`NaN`; and it throws a `TypeError` exactly when both are present, the filters are not empty
and `getVariantIndex` returns `NaN`. -/
theorem getConfigurableParameters_returns_default_or_throws
    (gvi : List Variant → Mapping → IndexValue) (props : Props) :
    (∀ s, (getConfigurableParameters gvi props).2 = .ok s →
      s = { index := .int 0, parameters := [] }) ∧
    ((∃ s, (getConfigurableParameters gvi props).2 = .ok s) ↔
      (props.product.variants = .undefined ∨ props.product.variants = .null ∨
       props.customFilters = .undefined ∨ props.customFilters = .null ∨
       props.customFilters = .val [] ∨
       ∃ variants filters, props.product.variants = .val variants ∧
         props.customFilters = .val filters ∧ gvi variants filters ≠ .nan)) ∧
    ((getConfigurableParameters gvi props).2 = .error .typeError ↔
      ∃ variants filters, props.product.variants = .val variants ∧
        props.customFilters = .val filters ∧ filters ≠ [] ∧ gvi variants filters = .nan) := by
  obtain ⟨⟨data, variants⟩, customFilters⟩ := props
  cases variants with
  | undefined => simp [getConfigurableParameters, defaultSelection]
  | null => simp [getConfigurableParameters, defaultSelection]
  | val variants =>
    cases customFilters with
    | undefined => simp [getConfigurableParameters, defaultSelection]
    | null => simp [getConfigurableParameters, defaultSelection]
    | val filters =>
      cases filters with
      | nil => simp [getConfigurableParameters, defaultSelection, Object.keys]
      | cons entry rest =>
        cases h : gvi variants (entry :: rest) <;>
          simp [getConfigurableParameters, defaultSelection, Object.keys, Number.isNaN,
            arrayGet, h]

/-- C4: `getLinkTo` returns without throwing, and its result is `undefined` exactly when the
product's `url_key` is `undefined`, `null` or the empty string. -/
theorem getLinkTo_undefined_iff_url_key_absent
    (convert : Mapping → String) (props : Props) (parameters : Mapping) :
    ∃ result, getLinkTo convert props parameters = .ok result ∧
      (result = none ↔
        (props.product.data.url_key = .undefined ∨ props.product.data.url_key = .null ∨
         props.product.data.url_key = .val "")) := by
  unfold getLinkTo
  cases h : props.product.data.url_key with
  | undefined => exact ⟨none, rfl, by simp⟩
  | null => exact ⟨none, rfl, by simp⟩
  | val url_key =>
    by_cases hk : url_key = ""
    · exact ⟨none, by simp [hk], by simp [hk]⟩
    · exact ⟨some { pathname := "/product/" ++ url_key
                    state := props.product
                    search := convert parameters }, by simp [hk], by simp [hk]⟩

/-- C5: for a product with a non-empty `url_key`, `getLinkTo` returns the target with
`pathname` equal to `/product/` followed by the `url_key`, `state` holding the product passed
in, and `search` equal to the query string of the parameters; with `url_key` `red-shoe` and
no parameters, `pathname` is `/product/red-shoe` and `search` is empty. -/
theorem getLinkTo_target_fields
    (convert : Mapping → String) (props : Props) (parameters : Mapping) (url_key : String)
    (hkey : props.product.data.url_key = .val url_key) (hpresent : url_key ≠ "") :
    getLinkTo convert props parameters
      = .ok (some { pathname := "/product/" ++ url_key
                    state := props.product
                    search := convert parameters }) ∧
    getLinkTo convertKeyValueObjectToQueryString props parameters
      = .ok (some { pathname := "/product/" ++ url_key
                    state := props.product
                    search := convertKeyValueObjectToQueryString parameters }) ∧
    (url_key = "red-shoe" →
      getLinkTo convertKeyValueObjectToQueryString props []
        = .ok (some { pathname := "/product/red-shoe"
                      state := props.product
                      search := "" })) := by
  refine ⟨?_, ?_, ?_⟩
  · simp [getLinkTo, hkey, hpresent]
  · simp [getLinkTo, hkey, hpresent]
  · intro hshoe
    subst hshoe
    simp only [getLinkTo, hkey, hpresent, if_false]
    rfl

/-- Witness of C5: the product `red-shoe` without parameters. -/
theorem getLinkTo_target_fields_witness :
    getLinkTo convertKeyValueObjectToQueryString
        { product := shoeProduct, customFilters := .val [] } []
      = .ok (some { pathname := "/product/red-shoe", state := shoeProduct, search := "" }) :=
  (getLinkTo_target_fields convertKeyValueObjectToQueryString
    { product := shoeProduct, customFilters := .val [] } [] "red-shoe" rfl (by decide)).2.2 rfl

/-- C9: when `renderReviewSummary` builds the review link for a target that `getLinkTo`
produced, the new object `_linkTo` has the `pathname`, `state` and `search` of that target and
`hash` equal to `#reviews`, and every object that existed before the call, the target among
them, is unchanged. -/
theorem renderReviewSummary_link_adds_hash
    (convert : Mapping → String) (props : Props) (parameters : Mapping)
    (target : NavigationTarget) (store : Store) (linkTo : Fin store.length)
    (summary : ReviewSummary) (count : Nat)
    (_hlink : getLinkTo convert props parameters = .ok (some target))
    (hstored : store.get linkTo = target.toObject)
    (hsummary : props.product.data.review_summary = .val summary)
    (hcount : summary.review_count = .val count) (hreviews : count ≠ 0) :
    (renderReviewSummary props store (some linkTo)).2 = some store.length ∧
    (renderReviewSummary props store (some linkTo)).1.get? store.length
      = some { pathname := some target.pathname
               state := some target.state
               search := some target.search
               hash := some "#reviews" } ∧
    (renderReviewSummary props store (some linkTo)).1.get? linkTo = some target.toObject ∧
    (∀ i : Fin store.length,
      (renderReviewSummary props store (some linkTo)).1.get? i = some (store.get i)) := by
  have hres : renderReviewSummary props store (some linkTo)
      = (store ++ [{ store.get linkTo with hash := some "#reviews" }], some store.length) := by
    simp [renderReviewSummary, hsummary, hcount, hreviews]
  have hkeep : ∀ i : Fin store.length,
      (store ++ [{ store.get linkTo with hash := some "#reviews" }]).get? i
        = some (store.get i) := by
    intro i
    rw [List.get?_eq_getElem?, List.getElem?_append_left i.isLt,
      List.getElem?_eq_getElem i.isLt]
    rfl
  rw [hres]
  refine ⟨rfl, ?_, ?_, hkeep⟩
  · have hobj : store[(linkTo : Nat)] = target.toObject := hstored
    simp [hobj, NavigationTarget.toObject]
  · rw [← hstored]
    exact hkeep linkTo

/-- Witness of C9: the review link of the product `mug`, which has three reviews. -/
theorem renderReviewSummary_link_adds_hash_witness :
    getLinkTo convertKeyValueObjectToQueryString
        { product := simpleProduct, customFilters := .val [] } [] = .ok (some mugTarget) ∧
    (renderReviewSummary { product := simpleProduct, customFilters := .val [] }
        [mugTarget.toObject] (some ⟨0, by decide⟩)).1.get? 1
      = some { pathname := some "/product/mug"
               state := some simpleProduct
               search := some ""
               hash := some "#reviews" } ∧
    (renderReviewSummary { product := simpleProduct, customFilters := .val [] }
        [mugTarget.toObject] (some ⟨0, by decide⟩)).1.get? 0 = some mugTarget.toObject :=
  ⟨rfl,
   (renderReviewSummary_link_adds_hash convertKeyValueObjectToQueryString
      { product := simpleProduct, customFilters := .val [] } [] mugTarget
      [mugTarget.toObject] ⟨0, by decide⟩
      { review_count := .val 3, rating_summary := .val 80 } 3
      rfl rfl rfl rfl (by decide)).2.1,
   (renderReviewSummary_link_adds_hash convertKeyValueObjectToQueryString
      { product := simpleProduct, customFilters := .val [] } [] mugTarget
      [mugTarget.toObject] ⟨0, by decide⟩
      { review_count := .val 3, rating_summary := .val 80 } 3
      rfl rfl rfl rfl (by decide)).2.2.1⟩

/-- C1: whenever `getVariantIndex` returns a position `k` for present variants and non-empty
filters, `getConfigurableParameters` returns index 0 with no parameters; evaluated on the
product `cap` with filters `{ color: "red" }`, where `getVariantIndex` finds the red variant
at position 1. -/
theorem getConfigurableParameters_ignores_matched_index :
    (∀ (gvi : List Variant → Mapping → IndexValue) (props : Props) (variants : List Variant)
        (filters : Mapping) (k : Nat),
      props.product.variants = .val variants → props.customFilters = .val filters →
      filters ≠ [] → gvi variants filters = .int k →
      (getConfigurableParameters gvi props).2 = .ok { index := .int 0, parameters := [] }) ∧
    (∀ noMatch : IndexValue,
      getVariantIndex noMatch capVariants [("color", "red")] = .int 1 ∧
      getConfigurableParameters (getVariantIndex noMatch)
          { product := capProduct, customFilters := .val [("color", "red")] }
        = ([(capVariants, [("color", "red")])],
           .ok { index := .int 0, parameters := [] })) := by
  refine ⟨?_, fun _ => ⟨rfl, rfl⟩⟩
  intro gvi props variants filters k hv hf hne hk
  obtain ⟨⟨data, vs⟩, cf⟩ := props
  simp only at hv hf
  subst hv hf
  cases filters with
  | nil => exact absurd rfl hne
  | cons entry rest =>
    simp [getConfigurableParameters, defaultSelection, Object.keys, Number.isNaN, hk]

/-- C2, evaluated on the product `cap` with filters `{ color: "green" }`, which no variant
matches: when `getVariantIndex` reports `NaN`, `getConfigurableParameters` throws a
`TypeError`; when it reports `-1`, the default selection is returned. -/
theorem getConfigurableParameters_throws_on_no_match :
    getVariantIndex .nan capVariants [("color", "green")] = .nan ∧
    (getConfigurableParameters (getVariantIndex .nan)
        { product := capProduct, customFilters := .val [("color", "green")] }).2
      = .error .typeError ∧
    (getConfigurableParameters (getVariantIndex (.int (-1)))
        { product := capProduct, customFilters := .val [("color", "green")] }).2
      = .ok { index := .int 0, parameters := [] } :=
  ⟨rfl, rfl, rfl⟩

/-- C6: `getThumbnail` returns the variant's thumbnail path when the variant at the index
has a non-empty one, but throws a `TypeError` whenever that variant's `thumbnail` is `null` or
`undefined` instead of falling back to the base path; evaluated on a configurable product
with base thumbnail `/a.jpg` whose variant at position 2 has a `null` thumbnail. -/
theorem getThumbnail_throws_on_null_variant_thumbnail :
    (∀ (props : Props) (variants : List Variant) (index : IndexValue) (variant : Variant)
        (thumbnail : Thumbnail) (path : String),
      props.product.variants = .val variants → arrayGet variants index = some variant →
      variant.product.thumbnail = .val thumbnail → thumbnail.path = .val path → path ≠ "" →
      getThumbnail props index = .ok (.val path)) ∧
    (∀ (props : Props) (variants : List Variant) (index : IndexValue) (variant : Variant),
      props.product.variants = .val variants → arrayGet variants index = some variant →
      (variant.product.thumbnail = .null ∨ variant.product.thumbnail = .undefined) →
      getThumbnail props index = .error .typeError) ∧
    getThumbnail { product := shoeProduct, customFilters := .val [] } (.int 2)
      = .error .typeError ∧
    getThumbnail { product := shoeProduct, customFilters := .val [] } (.int 1)
      = .ok (.val "/m.jpg") := by
  refine ⟨?_, ?_, rfl, rfl⟩
  · intro props variants index variant thumbnail path hv hi ht hp hne
    simp [getThumbnail, hv, hi, ht, hp, truthyString, hne, bind, Except.bind]
  · intro props variants index variant hv hi ht
    rcases ht with ht | ht <;> simp [getThumbnail, hv, hi, ht, bind, Except.bind]

/-- C7: for a product whose `type_id` is not `configurable` the price is read from the
product itself at every index, and the thumbnail is the base thumbnail when the product has
no variant list; but for a product of type `simple` that carries a variant list,
`getThumbnail` returns the variant's path `/v.jpg` and not the base path `/a.jpg`, and throws
a `TypeError` at an index outside the variant list. -/
theorem getThumbnail_reads_variant_of_simple_product :
    (∀ (props : Props) (index : IndexValue), props.product.data.type_id ≠ "configurable" →
      effectiveProduct props index = .ok props.product.data) ∧
    (∀ (props : Props) (index : IndexValue) (thumbnail : Thumbnail),
      (props.product.variants = .undefined ∨ props.product.variants = .null) →
      props.product.data.thumbnail = .val thumbnail →
      getThumbnail props index = .ok thumbnail.path) ∧
    effectiveProduct { product := simpleProduct, customFilters := .val [] } (.int 0)
      = .ok simpleProduct.data ∧
    simpleProduct.data.thumbnail = .val { path := .val "/a.jpg" } ∧
    getThumbnail { product := simpleProduct, customFilters := .val [] } (.int 0)
      = .ok (.val "/v.jpg") ∧
    getThumbnail { product := simpleProduct, customFilters := .val [] } (.int 1)
      = .error .typeError := by
  refine ⟨?_, ?_, rfl, rfl, rfl, rfl⟩
  · intro props index htype
    simp [effectiveProduct, htype]
  · intro props index thumbnail hv ht
    rcases hv with hv | hv <;>
      simp [getThumbnail, hv, ht, truthyString, bind, Except.bind]

/-- C8, evaluated on the scenario: for the product `cap` with filters `{ color: "red" }`,
`render` computes index 0, thumbnail `/b.jpg`, price 10, pathname `/product/cap` and an empty
`search`, whatever value `getVariantIndex` uses to report no match. -/
theorem render_cap_scenario_selects_first_variant :
    ∀ noMatch : IndexValue,
      render (getVariantIndex noMatch) convertKeyValueObjectToQueryString
          { product := capProduct, customFilters := .val [("color", "red")] }
        = .ok { index := .int 0
                parameters := []
                thumbnail := .val "/b.jpg"
                linkTo := some { pathname := "/product/cap", state := capProduct, search := "" }
                price := .val 10 } :=
  fun _ => rfl

end ProductCard
